import Mathlib

/-!
Shallow embedding of the storage-accounting and notification-delivery core of
the file-management backend.

Files embedded:
  * `app/api/v1/files/models.py`   — `File`, `Storage` rows, `FileType` enum,
    the `(user_id, file_name)` unique constraint.
  * `app/api/v1/files/services.py` — `create_file`, `get_file`, `get_files`,
    `delete_file`, `get_user_storage`, `create_storage`, `update_storage`,
    the key derivation of `upload_and_create_file`.
  * `app/api/v1/notifications/models.py` / `service.py` / `routes.py` —
    `Notification`, `notification_recipients`, `store_notification`,
    `get_unread_notifications`, `mark_notification_as_read`, the
    `create_notification` route.

Modelling conventions: the database session becomes an explicit state value
(`DB`, `NDB`); UUIDs become `Nat` identifiers supplied by the caller (the
source draws them from `uuid.uuid4()`); Python `int` columns become `Int`
(they are unbounded and carry no non-negativity validation in the pydantic
schemas); an `HTTPException` becomes `Except.error` with a typed error;
external S3 deletion becomes an oracle `String → Bool` indexed by the key the
code passes. ORM mutation of the single row returned by
`scalar_one_or_none` becomes replacement of the first matching row.
The `order_by(created_at.desc())` clauses of the list queries only permute
results; the properties proved below are membership properties, which are
permutation-invariant, so the sort itself is not modelled.
-/

namespace FileMgmt

/-- `FileType` enum from `app/api/v1/files/models.py`. -/
inductive FileType : Type
  | image
  | document
  | video
  | audio
  | other
deriving DecidableEq, Repr

/-- A row of the `files` table (`File` model). Timestamp columns are not
modelled (no proved property depends on them). -/
structure FileRow where
  id : Nat
  user_id : Nat
  file_name : String
  file_type : FileType
  file_size : Int
  file_url : String
deriving DecidableEq, Repr

/-- A row of the `storage` table (`Storage` model). -/
structure StorageRow where
  user_id : Nat
  total_space : Int
  used_space : Int
deriving DecidableEq, Repr

/-- The database state the files service operates on. -/
structure DB where
  storages : List StorageRow
  files : List FileRow
deriving DecidableEq, Repr

/-- `FileCreate` pydantic schema (`app/api/v1/files/schemas.py`). Note that
`file_size` is a plain `int` with no `ge=0` constraint. -/
structure FileCreate where
  file_name : String
  file_type : FileType
  file_size : Int
  file_url : String
deriving DecidableEq, Repr

/-- `StorageUpdate` pydantic schema: both fields optional, no bounds. -/
structure StorageUpdate where
  total_space : Option Int
  used_space : Option Int
deriving DecidableEq, Repr

/-- The typed errors raised by the services (`HTTPException` status codes:
413 insufficient space, 409 duplicate name, 500 storage failure,
404 not found). -/
inductive ApiError : Type
  | insufficientSpace
  | duplicateName
  | storageFailure
  | notFound
deriving DecidableEq, Repr

deriving instance DecidableEq for Except

/-- `MB = 1024 * 1024` from `services.py`. -/
def MB : Int := 1024 * 1024

/-- `DEFAULT_STORAGE_LIMIT = 100 * MB` from `services.py`. -/
def DEFAULT_STORAGE_LIMIT : Int := 100 * MB

/-- `get_user_storage`: `select(Storage).where(Storage.user_id == user_id)`,
`scalar_one_or_none()`. -/
def get_user_storage (db : DB) (user_id : Nat) : Option StorageRow :=
  db.storages.find? (fun s => s.user_id == user_id)

/-- Mutating the ORM row returned by `scalar_one_or_none` and committing:
the first row for `user_id` is replaced by `r`. -/
def replaceFirstStorage (l : List StorageRow) (user_id : Nat) (r : StorageRow) :
    List StorageRow :=
  match l with
  | [] => []
  | s :: rest =>
    if s.user_id == user_id then r :: rest
    else s :: replaceFirstStorage rest user_id r

/-- `create_file` from `services.py` lines 18–54.  Steps, in source order:
lazily create a default storage account when absent (`create_storage`
commits immediately, so it survives a later rollback); reject with 413 when
`used_space + file_size > total_space`; insert the file row — the unique
`(user_id, file_name)` constraint raises `IntegrityError` at commit, which
rolls the insert back and re-raises as 409; finally debit
`storage.used_space += file_size`.  `newId` stands for the fresh
`uuid.uuid4()` primary key. -/
def create_file (db : DB) (file_data : FileCreate) (user_id : Nat) (newId : Nat) :
    DB × Except ApiError FileRow :=
  let lazies :=
    match get_user_storage db user_id with
    | some s => (db, s)
    | none =>
      let s : StorageRow :=
        { user_id := user_id, total_space := DEFAULT_STORAGE_LIMIT, used_space := 0 }
      ({ db with storages := db.storages ++ [s] }, s)
  let db1 := lazies.1
  let storage := lazies.2
  if storage.used_space + file_data.file_size > storage.total_space then
    (db1, Except.error ApiError.insufficientSpace)
  else
    let db_file : FileRow :=
      { id := newId, user_id := user_id, file_name := file_data.file_name,
        file_type := file_data.file_type, file_size := file_data.file_size,
        file_url := file_data.file_url }
    if db1.files.any (fun g => g.user_id == user_id && g.file_name == file_data.file_name) then
      (db1, Except.error ApiError.duplicateName)
    else
      let db2 := { db1 with files := db1.files ++ [db_file] }
      let db3 := { db2 with
        storages := replaceFirstStorage db2.storages user_id
          { storage with used_space := storage.used_space + file_data.file_size } }
      (db3, Except.ok db_file)

/-- `get_file`: `select(File).where(File.id == file_id, File.user_id == user_id)`. -/
def get_file (db : DB) (file_id : Nat) (user_id : Nat) : Option FileRow :=
  db.files.find? (fun f => f.id == file_id && f.user_id == user_id)

/-- `get_files` (pagination and optional type filter; the
`created_at.desc()` sort is a permutation and is not modelled). Returns the
page and the total count. -/
def get_files (db : DB) (user_id : Nat) (skip limit : Nat)
    (file_type : Option FileType) : List FileRow × Nat :=
  let base : List FileRow := db.files.filter (fun f => f.user_id == user_id)
  let owned : List FileRow :=
    match file_type with
    | some t => base.filter (fun f => f.file_type == t)
    | none => base
  ((owned.drop skip).take limit, owned.length)

/-- Python's `str.split` with a one-character separator, embedded
structurally over the character list (so that it evaluates by kernel
reduction; `String.splitOn` recurses on positions and does not). -/
def splitChar (sep : Char) : List Char → List (List Char)
  | [] => [[]]
  | c :: cs =>
    let rest := splitChar sep cs
    if c = sep then [] :: rest
    else
      match rest with
      | [] => [[c]]
      | r :: rs => (c :: r) :: rs

/-- Key extraction in `delete_file` (`services.py` lines 131–134):
`parts = file_url.split('/'); key = parts[-1]`. -/
def extractKey (file_url : String) : String :=
  String.mk ((splitChar '/' file_url.data).getLastD [])

/-- Key derivation in `upload_and_create_file` (`services.py` line 218):
`key = f"{user_id}/{uuid.uuid4()}/{file.filename}"`. -/
def derive_key (user_id : String) (random_id : String) (filename : String) : String :=
  user_id ++ "/" ++ random_id ++ "/" ++ filename

/-- `delete_file` from `services.py` lines 122–151, in source order: look up
the file scoped to the owner (absent ⇒ return `false`); extract the last
URL segment as the S3 key and call the external deletion (`s3_delete`
oracle); on failure raise 500 **before** touching metadata or quota;
otherwise floor-release the quota (`max(0, used_space - file_size)`) and
delete the row. -/
def delete_file (s3_delete : String → Bool) (db : DB) (file_id : Nat) (user_id : Nat) :
    DB × Except ApiError Bool :=
  match db.files.find? (fun f => f.id == file_id && f.user_id == user_id) with
  | none => (db, Except.ok false)
  | some file =>
    let key := extractKey file.file_url
    if s3_delete key = false then
      (db, Except.error ApiError.storageFailure)
    else
      let storages1 :=
        match get_user_storage db user_id with
        | some s =>
          replaceFirstStorage db.storages user_id
            { s with used_space := max 0 (s.used_space - file.file_size) }
        | none => db.storages
      ({ storages := storages1,
         files := db.files.filter (fun f => f.id != file_id) }, Except.ok true)

/-- `update_storage` from `services.py` lines 176–197: absent account ⇒
`None`; otherwise overwrite whichever of `total_space` / `used_space` the
request carries, with no validation of either against the other. -/
def update_storage (db : DB) (user_id : Nat) (storage_data : StorageUpdate) :
    DB × Option StorageRow :=
  match get_user_storage db user_id with
  | none => (db, none)
  | some storage =>
    let storage1 :=
      match storage_data.total_space with
      | some t => { storage with total_space := t }
      | none => storage
    let storage2 :=
      match storage_data.used_space with
      | some u => { storage1 with used_space := u }
      | none => storage1
    ({ db with storages := replaceFirstStorage db.storages user_id storage2 },
     some storage2)

/-- The `used_space` of the caller's account, when the account exists. -/
def getUsed (db : DB) (user_id : Nat) : Option Int :=
  (get_user_storage db user_id).map (fun s => s.used_space)

/-- The account `create_file` runs its quota check against: the existing row,
or the default row it lazily creates. -/
def effStorage (db : DB) (user_id : Nat) : StorageRow :=
  (get_user_storage db user_id).getD
    { user_id := user_id, total_space := DEFAULT_STORAGE_LIMIT, used_space := 0 }

/-- The quota invariant of one account: `0 <= used_space <= total_space`. -/
def storageInv (s : StorageRow) : Prop :=
  0 ≤ s.used_space ∧ s.used_space ≤ s.total_space

instance (s : StorageRow) : Decidable (storageInv s) := by
  unfold storageInv
  infer_instance

/-- The quota invariant over every account in the database. -/
def dbStorageInv (db : DB) : Prop :=
  ∀ s ∈ db.storages, storageInv s

instance (db : DB) : Decidable (dbStorageInv db) := by
  unfold dbStorageInv
  infer_instance

/-! ## Notification subsystem (`app/api/v1/notifications`) -/

/-- A row of the `notifications` table (`Notification` model);
`sender_id` is nullable. -/
structure NotificationRow where
  id : Nat
  sender_id : Option Nat
  title : String
  message : String
  created_at : Nat
deriving DecidableEq, Repr

/-- A row of the `notification_recipients` association table: composite
primary key `(notification_id, user_id)` plus the `is_read` flag. -/
structure RecipientLink where
  notification_id : Nat
  user_id : Nat
  is_read : Bool
deriving DecidableEq, Repr

/-- The database state the notification service operates on. -/
structure NDB where
  notifications : List NotificationRow
  links : List RecipientLink
deriving DecidableEq, Repr

/-- `NotificationCreate` schema. -/
structure NotificationCreate where
  sender_id : Option Nat
  title : String
  message : String
deriving DecidableEq, Repr

/-- `UnreadNotificationResponse` schema. -/
structure UnreadNotificationResponse where
  id : Nat
  title : String
  message : String
  created_at : Nat
  is_read : Bool
deriving DecidableEq, Repr

/-- `NotificationService.store_notification` (`service.py` lines 13–36):
insert the notification row, then insert one `notification_recipients` row
per entry of `user_ids`, each with `is_read=False`.  `newId` stands for the
fresh `uuid.uuid4()` primary key, `now` for `datetime.now()`. -/
def store_notification (ndb : NDB) (notification_data : NotificationCreate)
    (user_ids : List Nat) (newId : Nat) (now : Nat) : NDB × NotificationRow :=
  let notification : NotificationRow :=
    { id := newId, sender_id := notification_data.sender_id,
      title := notification_data.title, message := notification_data.message,
      created_at := now }
  let ndb1 : NDB := { ndb with notifications := ndb.notifications ++ [notification] }
  let ndb2 : NDB := { ndb1 with
    links := ndb1.links ++ user_ids.map
      (fun u => { notification_id := newId, user_id := u, is_read := false }) }
  (ndb2, notification)

/-- `NotificationService.get_unread_notifications` (`service.py` lines
38–53): notifications joined to a recipient link of this user with
`is_read == False`, rendered as responses (the `created_at.desc()` sort is a
permutation and is not modelled). -/
def get_unread_notifications (ndb : NDB) (user_id : Nat) :
    List UnreadNotificationResponse :=
  (ndb.notifications.filter (fun n =>
      ndb.links.any (fun l =>
        l.notification_id == n.id && l.user_id == user_id && l.is_read == false))).map
    (fun n =>
      { id := n.id, title := n.title, message := n.message,
        created_at := n.created_at, is_read := false })

/-- `NotificationService.mark_notification_as_read` (`service.py` lines
55–91), in source order: select the recipient link by
`(notification_id, user_id)` **only** — the query carries no `is_read`
filter; absent link ⇒ 404; otherwise set `is_read=True` on the matching
link rows and return the notification rendered with `is_read=True`
(`None` when the notification row itself is gone). -/
def mark_notification_as_read (ndb : NDB) (notification_id : Nat) (user_id : Nat) :
    NDB × Except ApiError (Option UnreadNotificationResponse) :=
  match ndb.links.find? (fun l =>
      l.notification_id == notification_id && l.user_id == user_id) with
  | none => (ndb, Except.error ApiError.notFound)
  | some _ =>
    let links1 := ndb.links.map (fun l =>
      if l.notification_id == notification_id && l.user_id == user_id then
        { l with is_read := true }
      else l)
    let ndb1 : NDB := { ndb with links := links1 }
    match ndb1.notifications.find? (fun n => n.id == notification_id) with
    | none => (ndb1, Except.ok none)
    | some n =>
      (ndb1, Except.ok (some
        { id := n.id, title := n.title, message := n.message,
          created_at := n.created_at, is_read := true }))

/-- The `create_notification` route (`routes.py` lines 74–112): when the
`user_ids` query parameter is empty, the recipient list becomes the id of
every user in the `users` table (`all_user_ids`); otherwise the given list.
Then `store_notification` persists the notification and its links. -/
def create_notification (ndb : NDB) (notification : NotificationCreate)
    (user_ids : List Nat) (all_user_ids : List Nat) (newId : Nat) (now : Nat) :
    NDB × NotificationRow :=
  let ids := if user_ids.isEmpty then all_user_ids else user_ids
  store_notification ndb notification ids newId now

/-- The recipient links of one notification. -/
def linksFor (ndb : NDB) (notification_id : Nat) : List RecipientLink :=
  ndb.links.filter (fun l => l.notification_id == notification_id)

/-! ## Helper lemmas about the list primitives of the embedding -/

theorem find?_append_of_none {α : Type} {p : α → Bool} {l₁ : List α} (l₂ : List α)
    (h : l₁.find? p = none) : (l₁ ++ l₂).find? p = l₂.find? p := by
  induction l₁ with
  | nil => rfl
  | cons a l ih =>
    cases hp : p a with
    | true =>
      rw [List.find?_cons_of_pos _ hp] at h
      exact absurd h (by simp)
    | false =>
      rw [List.find?_cons_of_neg _ (by simp [hp])] at h
      rw [List.cons_append, List.find?_cons_of_neg _ (by simp [hp])]
      exact ih h

theorem mem_replaceFirstStorage {l : List StorageRow} {uid : Nat} {r t : StorageRow}
    (h : t ∈ replaceFirstStorage l uid r) : t = r ∨ t ∈ l := by
  induction l with
  | nil => exact absurd h (by simp [replaceFirstStorage])
  | cons a l ih =>
    by_cases ha : a.user_id = uid
    · simp only [replaceFirstStorage, ha, beq_self_eq_true, if_true, List.mem_cons] at h
      rcases h with h | h
      · exact Or.inl h
      · exact Or.inr (List.mem_cons_of_mem _ h)
    · have ha' : (a.user_id == uid) = false := by simp [ha]
      simp only [replaceFirstStorage, ha', Bool.false_eq_true, if_false,
        List.mem_cons] at h
      rcases h with h | h
      · exact Or.inr (by simp [h])
      · rcases ih h with h' | h'
        · exact Or.inl h'
        · exact Or.inr (List.mem_cons_of_mem _ h')

theorem find?_replaceFirstStorage {l : List StorageRow} {uid : Nat} {r s : StorageRow}
    (hr : r.user_id = uid)
    (h : l.find? (fun t => t.user_id == uid) = some s) :
    (replaceFirstStorage l uid r).find? (fun t => t.user_id == uid) = some r := by
  induction l with
  | nil => exact absurd h (by simp)
  | cons a l ih =>
    by_cases ha : a.user_id = uid
    · have ha' : (a.user_id == uid) = true := by simp [ha]
      simp only [replaceFirstStorage, ha', if_true]
      rw [List.find?_cons_of_pos _ (by simp [hr])]
    · have ha' : (a.user_id == uid) = false := by simp [ha]
      rw [List.find?_cons_of_neg _ (by simp [ha'])] at h
      simp only [replaceFirstStorage, ha', Bool.false_eq_true, if_false]
      rw [List.find?_cons_of_neg _ (by simp [ha'])]
      exact ih h

/-! ## C1 — the quota invariant and the operations that mutate an account -/

theorem create_file_preserves_inv (db : DB) (fd : FileCreate) (uid newId : Nat)
    (hinv : dbStorageInv db) (hsz : 0 ≤ fd.file_size) :
    dbStorageInv (create_file db fd uid newId).1 := by
  unfold create_file
  have hdef : storageInv
      { user_id := uid, total_space := DEFAULT_STORAGE_LIMIT, used_space := 0 } := by
    constructor
    · exact le_refl 0
    · unfold DEFAULT_STORAGE_LIMIT MB
      norm_num
  cases hls : get_user_storage db uid with
  | some s =>
    have hsmem : s ∈ db.storages := List.mem_of_find?_eq_some hls
    have hsinv : storageInv s := hinv s hsmem
    simp only
    by_cases hq : s.used_space + fd.file_size > s.total_space
    · simp only [hq, if_true]
      exact hinv
    · simp only [hq, if_false]
      by_cases hdup :
          db.files.any (fun g => g.user_id == uid && g.file_name == fd.file_name)
      · simp only [hdup, if_true]
        exact hinv
      · simp only [hdup, Bool.false_eq_true, if_false]
        intro t ht
        rcases mem_replaceFirstStorage ht with h | h
        · subst h
          constructor
          · exact add_nonneg hsinv.1 hsz
          · exact not_lt.mp hq
        · exact hinv t h
  | none =>
    simp only
    by_cases hq : (0 : Int) + fd.file_size > DEFAULT_STORAGE_LIMIT
    · simp only [hq, if_true]
      intro t ht
      rcases List.mem_append.mp ht with h | h
      · exact hinv t h
      · rw [List.mem_singleton.mp h]
        exact hdef
    · simp only [hq, if_false]
      by_cases hdup :
          db.files.any (fun g => g.user_id == uid && g.file_name == fd.file_name)
      · simp only [hdup, if_true]
        intro t ht
        rcases List.mem_append.mp ht with h | h
        · exact hinv t h
        · rw [List.mem_singleton.mp h]
          exact hdef
      · simp only [hdup, Bool.false_eq_true, if_false]
        intro t ht
        rcases mem_replaceFirstStorage ht with h | h
        · subst h
          constructor
          · exact add_nonneg (le_refl 0) hsz
          · exact not_lt.mp hq
        · rcases List.mem_append.mp h with h' | h'
          · exact hinv t h'
          · rw [List.mem_singleton.mp h']
            exact hdef

theorem delete_file_preserves_inv (s3 : String → Bool) (db : DB) (fid uid : Nat)
    (hinv : dbStorageInv db)
    (hfiles : ∀ f ∈ db.files, 0 ≤ f.file_size) :
    dbStorageInv (delete_file s3 db fid uid).1 := by
  unfold delete_file
  cases hf : db.files.find? (fun f => f.id == fid && f.user_id == uid) with
  | none => exact hinv
  | some file =>
    have hfsz : 0 ≤ file.file_size := hfiles file (List.mem_of_find?_eq_some hf)
    simp only
    by_cases h3 : s3 (extractKey file.file_url) = false
    · simp only [h3, if_true]
      exact hinv
    · simp only [h3, if_false]
      cases hls : get_user_storage db uid with
      | none => exact hinv
      | some s =>
        have hsinv : storageInv s := hinv s (List.mem_of_find?_eq_some hls)
        intro t ht
        rcases mem_replaceFirstStorage ht with h | h
        · subst h
          constructor
          · exact le_max_left 0 _
          · apply max_le
            · exact le_trans hsinv.1 hsinv.2
            · exact le_trans (sub_le_self _ hfsz) hsinv.2
        · exact hinv t h

/-- C1: the quota invariant `0 ≤ used_space ≤ total_space` is preserved by
`create_file` (quota debit, for a non-negative requested size over a
database of non-negative file sizes) and by `delete_file` (quota release) —
but **not** by `update_storage`, which overwrites the requested fields with
no validation (see the counterexample); the claim is corrected to drop
`update_storage` from the list of invariant-preserving operations. -/
theorem C1_invariant_create_delete (db : DB) (fd : FileCreate)
    (uid newId fid : Nat) (s3 : String → Bool)
    (hinv : dbStorageInv db) (hsz : 0 ≤ fd.file_size)
    (hfiles : ∀ f ∈ db.files, 0 ≤ f.file_size) :
    dbStorageInv (create_file db fd uid newId).1 ∧
    dbStorageInv (delete_file s3 db fid uid).1 :=
  ⟨create_file_preserves_inv db fd uid newId hinv hsz,
   delete_file_preserves_inv s3 db fid uid hinv hfiles⟩

/-- A database satisfying the quota invariant: one account with
`used_space = 10`, `total_space = 100`, no files. -/
def c1db : DB :=
  { storages := [{ user_id := 1, total_space := 100, used_space := 10 }],
    files := [] }

/-- C1 counterexample: starting from an account with `used = 10 ≤ total =
100`, the administrative `update_storage` request `total_space := 5` is
applied with no validation and leaves `used = 10 > total = 5`, violating
`0 ≤ used ≤ total`.  So the invariant is *not* preserved by every mutating
operation as claimed. -/
theorem C1_update_storage_violates_invariant :
    dbStorageInv c1db ∧
    ¬ dbStorageInv
      (update_storage c1db 1 { total_space := some 5, used_space := none }).1 := by
  decide

/-- C1 witness: the amended preservation theorem applied to the concrete
database `c1db`, a 7-byte create request and a delete that always succeeds
at the storage layer. -/
theorem C1_invariant_witness :
    dbStorageInv (create_file c1db
      { file_name := "a", file_type := FileType.other, file_size := 7,
        file_url := "u" } 1 99).1 ∧
    dbStorageInv (delete_file (fun _ => true) c1db 42 1).1 :=
  C1_invariant_create_delete c1db
    { file_name := "a", file_type := FileType.other, file_size := 7,
      file_url := "u" } 1 99 42 (fun _ => true)
    (by decide) (by decide) (by decide)

/-! ## C2 — quota rejection writes nothing -/

/-- C2: whenever the requested `file_size` added to the account's current
`used_space` exceeds `total_space` — the account being the existing row or,
when absent, the default-capacity row `create_file` lazily creates before
the check — `create_file` fails with `insufficientSpace` (HTTP 413), writes
no file row, and leaves `used_space` unchanged; in the lazy case the
account now exists with the system-default capacity and `used_space = 0`. -/
theorem C2_insufficient_space_rejects (db : DB) (fd : FileCreate) (uid newId : Nat)
    (hq : (effStorage db uid).used_space + fd.file_size >
      (effStorage db uid).total_space) :
    (create_file db fd uid newId).2 = Except.error ApiError.insufficientSpace ∧
    (create_file db fd uid newId).1.files = db.files ∧
    getUsed (create_file db fd uid newId).1 uid =
      some (effStorage db uid).used_space ∧
    (get_user_storage db uid = none →
      get_user_storage (create_file db fd uid newId).1 uid =
        some { user_id := uid, total_space := DEFAULT_STORAGE_LIMIT,
               used_space := 0 }) := by
  cases hls : get_user_storage db uid with
  | some s =>
    have hq' : s.used_space + fd.file_size > s.total_space := by
      rwa [effStorage, hls, Option.getD_some] at hq
    have hcf : create_file db fd uid newId =
        (db, Except.error ApiError.insufficientSpace) := by
      simp only [create_file, hls, hq', if_true]
    rw [hcf]
    refine ⟨rfl, rfl, ?_, ?_⟩
    · simp [getUsed, hls, effStorage]
    · intro hnone
      exact absurd hnone (by simp)
  | none =>
    have hq' : (0 : Int) + fd.file_size > DEFAULT_STORAGE_LIMIT := by
      simp only [effStorage, hls, Option.getD_none] at hq
      exact hq
    have hfind :
        (db.storages ++
          [{ user_id := uid, total_space := DEFAULT_STORAGE_LIMIT,
             used_space := 0 : StorageRow }]).find? (fun s => s.user_id == uid) =
          some { user_id := uid, total_space := DEFAULT_STORAGE_LIMIT,
                 used_space := 0 } := by
      rw [find?_append_of_none _ hls]
      exact List.find?_cons_of_pos _ (by simp)
    have hcf : create_file db fd uid newId =
        ({ db with storages := db.storages ++
            [{ user_id := uid, total_space := DEFAULT_STORAGE_LIMIT,
               used_space := 0 }] },
         Except.error ApiError.insufficientSpace) := by
      simp only [create_file, hls, hq', if_true]
    rw [hcf]
    refine ⟨rfl, rfl, ?_, ?_⟩
    · simp only [getUsed, get_user_storage]
      rw [hfind]
      simp [effStorage, hls]
    · intro _
      simp only [get_user_storage]
      exact hfind

/-- C2 witness: a user with 10 of 100 bytes used requests a 95-byte file;
the instantiated theorem evaluates to the 413 rejection with nothing
written. -/
theorem C2_insufficient_space_witness :
    (create_file c1db
      { file_name := "big", file_type := FileType.other, file_size := 95,
        file_url := "u" } 1 7).2 = Except.error ApiError.insufficientSpace ∧
    (create_file c1db
      { file_name := "big", file_type := FileType.other, file_size := 95,
        file_url := "u" } 1 7).1.files = c1db.files ∧
    getUsed (create_file c1db
      { file_name := "big", file_type := FileType.other, file_size := 95,
        file_url := "u" } 1 7).1 1 = some (effStorage c1db 1).used_space ∧
    (get_user_storage c1db 1 = none →
      get_user_storage (create_file c1db
        { file_name := "big", file_type := FileType.other, file_size := 95,
          file_url := "u" } 1 7).1 1 =
        some { user_id := 1, total_space := DEFAULT_STORAGE_LIMIT,
               used_space := 0 }) :=
  C2_insufficient_space_rejects c1db
    { file_name := "big", file_type := FileType.other, file_size := 95,
      file_url := "u" } 1 7 (by decide)

/-! ## C3 — duplicate name rejection retains no debit -/

/-- C3: when the same owner already has a file of the requested name (and
the quota check passes, so control reaches the uniqueness violation),
`create_file` fails with `duplicateName` (HTTP 409), the file table is
unchanged, and the account's `used_space` is exactly what it was before the
attempt — no debit is retained for the rejected create. -/
theorem C3_duplicate_name_no_debit (db : DB) (fd : FileCreate) (uid newId : Nat)
    (g : FileRow) (hg : g ∈ db.files) (hgu : g.user_id = uid)
    (hgn : g.file_name = fd.file_name)
    (hq : ¬ ((effStorage db uid).used_space + fd.file_size >
      (effStorage db uid).total_space)) :
    (create_file db fd uid newId).2 = Except.error ApiError.duplicateName ∧
    (create_file db fd uid newId).1.files = db.files ∧
    getUsed (create_file db fd uid newId).1 uid =
      some (effStorage db uid).used_space := by
  have hdup :
      db.files.any (fun g => g.user_id == uid && g.file_name == fd.file_name) =
        true :=
    List.any_eq_true.mpr ⟨g, hg, by simp [hgu, hgn]⟩
  cases hls : get_user_storage db uid with
  | some s =>
    have hq' : ¬ (s.used_space + fd.file_size > s.total_space) := by
      rwa [effStorage, hls, Option.getD_some] at hq
    have hcf : create_file db fd uid newId =
        (db, Except.error ApiError.duplicateName) := by
      simp only [create_file, hls, hq', if_false, hdup, if_true]
    rw [hcf]
    refine ⟨rfl, rfl, ?_⟩
    simp [getUsed, hls, effStorage]
  | none =>
    have hq' : ¬ ((0 : Int) + fd.file_size > DEFAULT_STORAGE_LIMIT) := by
      simp only [effStorage, hls, Option.getD_none] at hq
      exact hq
    have hfind :
        (db.storages ++
          [{ user_id := uid, total_space := DEFAULT_STORAGE_LIMIT,
             used_space := 0 : StorageRow }]).find? (fun s => s.user_id == uid) =
          some { user_id := uid, total_space := DEFAULT_STORAGE_LIMIT,
                 used_space := 0 } := by
      rw [find?_append_of_none _ hls]
      exact List.find?_cons_of_pos _ (by simp)
    have hcf : create_file db fd uid newId =
        ({ db with storages := db.storages ++
            [{ user_id := uid, total_space := DEFAULT_STORAGE_LIMIT,
               used_space := 0 }] },
         Except.error ApiError.duplicateName) := by
      simp only [create_file, hls, hq', if_false, hdup, if_true]
    rw [hcf]
    refine ⟨rfl, rfl, ?_⟩
    simp only [getUsed, get_user_storage]
    rw [hfind]
    simp [effStorage, hls]

/-- A database for the duplicate-name scenario: user 1 already owns a file
named `"report.pdf"` of 10 bytes, with a consistent account (10 of 100
bytes used). -/
def c3db : DB :=
  { storages := [{ user_id := 1, total_space := 100, used_space := 10 }],
    files := [{ id := 5, user_id := 1, file_name := "report.pdf",
                file_type := FileType.document, file_size := 10,
                file_url := "https://bucket/1/r1/report.pdf" }] }

/-- C3 witness: creating a second `"report.pdf"` for user 1 is rejected
with `duplicateName` and `used_space` stays 10. -/
theorem C3_duplicate_name_witness :
    (create_file c3db
      { file_name := "report.pdf", file_type := FileType.document,
        file_size := 20, file_url := "u2" } 1 9).2 =
      Except.error ApiError.duplicateName ∧
    (create_file c3db
      { file_name := "report.pdf", file_type := FileType.document,
        file_size := 20, file_url := "u2" } 1 9).1.files = c3db.files ∧
    getUsed (create_file c3db
      { file_name := "report.pdf", file_type := FileType.document,
        file_size := 20, file_url := "u2" } 1 9).1 1 =
      some (effStorage c3db 1).used_space :=
  C3_duplicate_name_no_debit c3db
    { file_name := "report.pdf", file_type := FileType.document,
      file_size := 20, file_url := "u2" } 1 9
    { id := 5, user_id := 1, file_name := "report.pdf",
      file_type := FileType.document, file_size := 10,
      file_url := "https://bucket/1/r1/report.pdf" }
    (by decide) (by decide) (by decide) (by decide)

/-! ## C4 — release after reserve round-trips; release floors at 0 -/

/-- C4: on a quota account with non-negative `used_space`, releasing
`file_size` bytes (the `delete_file` quota update) immediately after a
successful reservation of the same `file_size` bytes (the `create_file`
quota debit) restores `used_space` to its prior value exactly; and for
every database, file and user, the release inside `delete_file` never
drives the account's `used_space` below 0 — the updated value is
`max(0, used - size)`, so it is non-negative even when the recorded size
exceeds the current usage. -/
theorem C4_release_after_reserve_round_trip (db : DB) (fd : FileCreate)
    (uid newId : Nat) (s : StorageRow) (s3 : String → Bool)
    (hs : get_user_storage db uid = some s)
    (hu0 : 0 ≤ s.used_space)
    (hq : ¬ (s.used_space + fd.file_size > s.total_space))
    (hdup : db.files.any
      (fun g => g.user_id == uid && g.file_name == fd.file_name) = false)
    (hid : ∀ g ∈ db.files, g.id ≠ newId)
    (hs3 : s3 (extractKey fd.file_url) = true) :
    getUsed (delete_file s3 (create_file db fd uid newId).1 newId uid).1 uid =
      some s.used_space ∧
    (∀ db2 fid u2 v,
      getUsed (delete_file s3 db2 fid u2).1 u2 = some v →
      getUsed db2 u2 = some v ∨ 0 ≤ v) := by
  constructor
  · have hs0 : db.storages.find? (fun t => t.user_id == uid) = some s := hs
    have hsu : s.user_id = uid := by
      have h := List.find?_some hs0
      simpa using h
    have hcf : create_file db fd uid newId =
        ({ storages := replaceFirstStorage db.storages uid
             { s with used_space := s.used_space + fd.file_size },
           files := db.files ++
             [{ id := newId, user_id := uid, file_name := fd.file_name,
                file_type := fd.file_type, file_size := fd.file_size,
                file_url := fd.file_url }] }, Except.ok
          { id := newId, user_id := uid, file_name := fd.file_name,
            file_type := fd.file_type, file_size := fd.file_size,
            file_url := fd.file_url }) := by
      simp only [create_file, hs, hq, if_false, hdup, Bool.false_eq_true]
    rw [hcf]
    have hfindf : ((db.files ++
        [{ id := newId, user_id := uid, file_name := fd.file_name,
           file_type := fd.file_type, file_size := fd.file_size,
           file_url := fd.file_url : FileRow }]).find?
          (fun g => g.id == newId && g.user_id == uid)) =
        some { id := newId, user_id := uid, file_name := fd.file_name,
               file_type := fd.file_type, file_size := fd.file_size,
               file_url := fd.file_url } := by
      rw [find?_append_of_none]
      · exact List.find?_cons_of_pos _ (by simp)
      · exact List.find?_eq_none.mpr (fun g hg => by simp [hid g hg])
    have hfinds : (replaceFirstStorage db.storages uid
        { s with used_space := s.used_space + fd.file_size }).find?
          (fun t => t.user_id == uid) =
        some { s with used_space := s.used_space + fd.file_size } :=
      find?_replaceFirstStorage hsu hs0
    have hdel : delete_file s3
        { storages := replaceFirstStorage db.storages uid
            { s with used_space := s.used_space + fd.file_size },
          files := db.files ++
            [{ id := newId, user_id := uid, file_name := fd.file_name,
               file_type := fd.file_type, file_size := fd.file_size,
               file_url := fd.file_url }] } newId uid =
        ({ storages := replaceFirstStorage
             (replaceFirstStorage db.storages uid
               { s with used_space := s.used_space + fd.file_size }) uid
             { s with
               used_space := max 0 (s.used_space + fd.file_size - fd.file_size) },
           files := List.filter (fun g => g.id != newId)
             (db.files ++
               [{ id := newId, user_id := uid, file_name := fd.file_name,
                  file_type := fd.file_type, file_size := fd.file_size,
                  file_url := fd.file_url }]) },
         Except.ok true) := by
      simp only [delete_file, hfindf, get_user_storage, hfinds, hs3,
        Bool.true_eq_false, if_false]
    rw [hdel]
    have hfinal : (replaceFirstStorage
        (replaceFirstStorage db.storages uid
          { s with used_space := s.used_space + fd.file_size }) uid
        { s with
          used_space := max 0 (s.used_space + fd.file_size - fd.file_size) }).find?
          (fun t => t.user_id == uid) =
        some { s with
          used_space := max 0 (s.used_space + fd.file_size - fd.file_size) } :=
      find?_replaceFirstStorage hsu hfinds
    simp only [getUsed, get_user_storage]
    rw [hfinal]
    rw [Option.map_some']
    rw [add_sub_cancel_right, max_eq_right hu0]
  · intro db2 fid u2 v hv
    unfold delete_file at hv
    cases hfind2 : db2.files.find? (fun f => f.id == fid && f.user_id == u2) with
    | none =>
      rw [hfind2] at hv
      exact Or.inl hv
    | some file =>
      rw [hfind2] at hv
      simp only at hv
      by_cases h3 : s3 (extractKey file.file_url) = false
      · rw [if_pos h3] at hv
        exact Or.inl hv
      · rw [if_neg h3] at hv
        cases hls2 : get_user_storage db2 u2 with
        | none =>
          rw [hls2] at hv
          exact Or.inl hv
        | some s2 =>
          rw [hls2] at hv
          have hs2u : s2.user_id = u2 := by
            have h := List.find?_some (hls2 :
              db2.storages.find? (fun t => t.user_id == u2) = some s2)
            simpa using h
          have hres : (replaceFirstStorage db2.storages u2
              { s2 with
                used_space := max 0 (s2.used_space - file.file_size) }).find?
                (fun t => t.user_id == u2) =
              some { s2 with
                used_space := max 0 (s2.used_space - file.file_size) } :=
            find?_replaceFirstStorage hs2u hls2
          simp only [getUsed, get_user_storage] at hv
          rw [hres, Option.map_some'] at hv
          right
          have hv' : max 0 (s2.used_space - file.file_size) = v :=
            Option.some.inj hv
          rw [← hv']
          exact le_max_left 0 _

/-- C4 witness: a create of 7 bytes followed by a delete of the created
file on the account `(used = 10, total = 100)` restores `used = 10`; the
floor property is instantiated at the same state. -/
theorem C4_release_round_trip_witness :
    getUsed (delete_file (fun _ => true) (create_file c1db
      { file_name := "a", file_type := FileType.other, file_size := 7,
        file_url := "u" } 1 11).1 11 1).1 1 =
      some ({ user_id := 1, total_space := 100,
              used_space := 10 : StorageRow }).used_space ∧
    (∀ db2 fid u2 v,
      getUsed (delete_file (fun _ => true) db2 fid u2).1 u2 = some v →
      getUsed db2 u2 = some v ∨ 0 ≤ v) :=
  C4_release_after_reserve_round_trip c1db
    { file_name := "a", file_type := FileType.other, file_size := 7,
      file_url := "u" } 1 11
    { user_id := 1, total_space := 100, used_space := 10 }
    (fun _ => true)
    (by decide) (by decide) (by decide) (by decide) (by decide) (by rfl)

/-! ## C5 — successful delete: exact quota release, gone from get and list -/

theorem mem_of_mem_get_files {db : DB} {uid skip limit : Nat}
    {ft : Option FileType} {g : FileRow}
    (h : g ∈ (get_files db uid skip limit ft).1) : g ∈ db.files := by
  unfold get_files at h
  cases ft with
  | none =>
    simp only at h
    exact List.mem_of_mem_filter (List.drop_subset _ _ (List.take_subset _ _ h))
  | some t =>
    simp only at h
    exact List.mem_of_mem_filter
      (List.mem_of_mem_filter (List.drop_subset _ _ (List.take_subset _ _ h)))

/-- C5: when the user owns the file, the external removal succeeds and the
account's `used_space` covers the file's recorded size (consistent
accounting, so the floor in `max(0, used - size)` is inactive), a
`delete_file` returns success, decreases `used_space` by exactly the file's
recorded `file_size`, removes the file from every subsequent `get_files`
page (any skip/limit/type filter), and a subsequent `get_file` on the same
id returns nothing (the route renders that as 404 NotFound). -/
theorem C5_delete_exact_release_and_removal (db : DB) (fid uid : Nat)
    (file : FileRow) (s : StorageRow) (s3 : String → Bool)
    (hf : get_file db fid uid = some file)
    (h3 : s3 (extractKey file.file_url) = true)
    (hs : get_user_storage db uid = some s)
    (hsz : file.file_size ≤ s.used_space) :
    (delete_file s3 db fid uid).2 = Except.ok true ∧
    getUsed (delete_file s3 db fid uid).1 uid =
      some (s.used_space - file.file_size) ∧
    get_file (delete_file s3 db fid uid).1 fid uid = none ∧
    (∀ skip limit ft, ∀ g ∈
      (get_files (delete_file s3 db fid uid).1 uid skip limit ft).1,
      g.id ≠ fid) := by
  have hf' : db.files.find? (fun f => f.id == fid && f.user_id == uid) =
      some file := hf
  have hs' : db.storages.find? (fun t => t.user_id == uid) = some s := hs
  have hsu : s.user_id = uid := by
    have h := List.find?_some hs'
    simpa using h
  have hdel : delete_file s3 db fid uid =
      ({ storages := replaceFirstStorage db.storages uid
           { s with
             used_space := max 0 (s.used_space - file.file_size) },
         files := List.filter (fun f => f.id != fid) db.files },
       Except.ok true) := by
    simp only [delete_file, hf', get_user_storage, hs', h3,
      Bool.true_eq_false, if_false]
  rw [hdel]
  have hmax : max 0 (s.used_space - file.file_size) =
      s.used_space - file.file_size :=
    max_eq_right (sub_nonneg.mpr hsz)
  refine ⟨rfl, ?_, ?_, ?_⟩
  · have hres : (replaceFirstStorage db.storages uid
        { s with
          used_space := max 0 (s.used_space - file.file_size) }).find?
          (fun t => t.user_id == uid) =
        some { s with
          used_space := max 0 (s.used_space - file.file_size) } :=
      find?_replaceFirstStorage hsu hs'
    simp only [getUsed, get_user_storage]
    rw [hres, Option.map_some', hmax]
  · apply List.find?_eq_none.mpr
    intro g hg
    have hgid : (g.id != fid) = true := (List.mem_filter.mp hg).2
    simp only [bne_iff_ne, ne_eq] at hgid
    simp [hgid]
  · intro skip limit ft g hg
    have hgf : g ∈ List.filter (fun f => f.id != fid) db.files :=
      mem_of_mem_get_files hg
    have hgid : (g.id != fid) = true := (List.mem_filter.mp hgf).2
    simpa using hgid

/-- C5 witness: deleting the 10-byte `"report.pdf"` of user 1 from `c3db`
succeeds, drops `used_space` from 10 to 0, and the file is gone from `get`
and from every list page. -/
theorem C5_delete_witness :
    (delete_file (fun _ => true) c3db 5 1).2 = Except.ok true ∧
    getUsed (delete_file (fun _ => true) c3db 5 1).1 1 =
      some ((10 : Int) - 10) ∧
    get_file (delete_file (fun _ => true) c3db 5 1).1 5 1 = none ∧
    (∀ skip limit ft, ∀ g ∈
      (get_files (delete_file (fun _ => true) c3db 5 1).1 1 skip limit ft).1,
      g.id ≠ 5) :=
  C5_delete_exact_release_and_removal c3db 5 1
    { id := 5, user_id := 1, file_name := "report.pdf",
      file_type := FileType.document, file_size := 10,
      file_url := "https://bucket/1/r1/report.pdf" }
    { user_id := 1, total_space := 100, used_space := 10 }
    (fun _ => true) (by decide) (by rfl) (by decide) (by decide)

/-! ## C6 — external storage failure aborts the delete untouched -/

/-- C6: when the user owns the file but the external object removal
reports failure, `delete_file` raises the storage error (HTTP 500) and
returns the database **exactly** as it was — no file row removed, no quota
released; the S3 call happens before any metadata or quota mutation. -/
theorem C6_storage_failure_aborts_delete (db : DB) (fid uid : Nat)
    (file : FileRow) (s3 : String → Bool)
    (hf : get_file db fid uid = some file)
    (h3 : s3 (extractKey file.file_url) = false) :
    delete_file s3 db fid uid = (db, Except.error ApiError.storageFailure) := by
  have hf' : db.files.find? (fun f => f.id == fid && f.user_id == uid) =
      some file := hf
  simp only [delete_file, hf', h3, if_true]

/-- C6 witness: with an S3 layer that always fails, deleting user 1's file
from `c3db` surfaces the storage error and leaves the database unchanged. -/
theorem C6_storage_failure_witness :
    delete_file (fun _ => false) c3db 5 1 =
      (c3db, Except.error ApiError.storageFailure) :=
  C6_storage_failure_aborts_delete c3db 5 1
    { id := 5, user_id := 1, file_name := "report.pdf",
      file_type := FileType.document, file_size := 10,
      file_url := "https://bucket/1/r1/report.pdf" }
    (fun _ => false) (by decide) (by rfl)

/-! ## C7 — marking an already-read notification -/

theorem map_id_of_forall {α : Type} {f : α → α} {l : List α}
    (h : ∀ x ∈ l, f x = x) : l.map f = l := by
  induction l with
  | nil => rfl
  | cons a t ih =>
    rw [List.map_cons, h a (List.mem_cons_self a t),
      ih (fun x hx => h x (List.mem_cons_of_mem a hx))]

/-- A notification state in which user 7's recipient link for notification
1 exists and is **already read**. -/
def c7ndb : NDB :=
  { notifications := [{ id := 1, sender_id := none, title := "t",
                        message := "m", created_at := 0 }],
    links := [{ notification_id := 1, user_id := 7, is_read := true }] }

/-- C7 counterexample: the recipient link exists but is already read, and
`mark_notification_as_read` does **not** report NotFound — the
query selects the link with no `is_read` filter, so the call succeeds and
returns the notification (re-marking is an idempotent no-op).  The claim
that "link exists but already read" is treated identically to "link does
not exist" is therefore false on the code. -/
theorem C7_already_read_is_not_notfound :
    (mark_notification_as_read c7ndb 1 7).2 =
      Except.ok (some { id := 1, title := "t", message := "m",
                        created_at := 0, is_read := true }) ∧
    (mark_notification_as_read c7ndb 1 7).2 ≠
      Except.error ApiError.notFound ∧
    (mark_notification_as_read c7ndb 1 7).1 = c7ndb := by
  decide

/-- C7 (amended): `mark_notification_as_read` reports NotFound exactly when
no recipient link exists for the `(notification, user)` pair; when the link
exists — whether unread or already read — the call succeeds, and when every
matching link is already read the state is left unchanged (an idempotent
no-op rather than an error). -/
theorem C7_mark_read_link_semantics (ndb : NDB) (nid uid : Nat) :
    (ndb.links.find?
        (fun l => l.notification_id == nid && l.user_id == uid) = none →
      mark_notification_as_read ndb nid uid =
        (ndb, Except.error ApiError.notFound)) ∧
    (∀ l, ndb.links.find?
        (fun l => l.notification_id == nid && l.user_id == uid) = some l →
      (∃ r, (mark_notification_as_read ndb nid uid).2 = Except.ok r) ∧
      ((∀ x ∈ ndb.links, x.notification_id = nid → x.user_id = uid →
          x.is_read = true) →
        (mark_notification_as_read ndb nid uid).1 = ndb)) := by
  constructor
  · intro hnone
    simp only [mark_notification_as_read, hnone]
  · intro l hl
    constructor
    · unfold mark_notification_as_read
      rw [hl]
      dsimp only
      split
      · exact ⟨_, rfl⟩
      · exact ⟨_, rfl⟩
    · intro hall
      have hmap : ndb.links.map (fun l =>
          if l.notification_id == nid && l.user_id == uid then
            { l with is_read := true }
          else l) = ndb.links := by
        apply map_id_of_forall
        intro x hx
        by_cases hm : x.notification_id = nid ∧ x.user_id = uid
        · have hread : x.is_read = true := hall x hx hm.1 hm.2
          obtain ⟨xn, xu, xr⟩ := x
          simp only at hread
          simp [hread]
        · have : (x.notification_id == nid && x.user_id == uid) = false := by
            rcases Decidable.not_and_iff_or_not.mp hm with h | h <;> simp [h]
          rw [if_neg (by simp [this])]
      unfold mark_notification_as_read
      rw [hl]
      simp only [hmap]
      split
      · rfl
      · rfl

/-- C7 witness for the amended theorem: at `c7ndb` the already-read link of
`(notification 1, user 7)` makes the call succeed and leave the state
unchanged. -/
theorem C7_mark_read_witness :
    (∃ r, (mark_notification_as_read c7ndb 1 7).2 = Except.ok r) ∧
    (mark_notification_as_read c7ndb 1 7).1 = c7ndb := by
  have h := (C7_mark_read_link_semantics c7ndb 1 7).2
    { notification_id := 1, user_id := 7, is_read := true } (by decide)
  exact ⟨h.1, h.2 (by decide)⟩

/-! ## C8 — publish to three recipients, mark one read -/

/-- The notification row `store_notification` inserts. -/
def storedNotification (nd : NotificationCreate) (nid now : Nat) : NotificationRow :=
  { id := nid, sender_id := nd.sender_id, title := nd.title,
    message := nd.message, created_at := now }

/-- An unread recipient link, as inserted by `store_notification`. -/
def unreadLink (nid u : Nat) : RecipientLink :=
  { notification_id := nid, user_id := u, is_read := false }

/-- A read recipient link, as produced by `mark_notification_as_read`. -/
def readLink (nid u : Nat) : RecipientLink :=
  { notification_id := nid, user_id := u, is_read := true }

/-- The response `get_unread_notifications` renders for a notification. -/
def unreadResponse (nd : NotificationCreate) (nid now : Nat) :
    UnreadNotificationResponse :=
  { id := nid, title := nd.title, message := nd.message,
    created_at := now, is_read := false }

/-- C8: publishing a notification to the three distinct recipients
`a, b, c` (under a fresh notification id) creates exactly three recipient
links, all unread; `mark_notification_as_read` for `b` flips only `b`'s
link, leaving `a`'s and `c`'s unread; and the unread listing for `a`
still includes the notification. -/
theorem C8_publish_three_mark_one (ndb : NDB) (nd : NotificationCreate)
    (a b c nid now : Nat)
    (hab : a ≠ b) (hcb : c ≠ b)
    (hfresh : ∀ l ∈ ndb.links, l.notification_id ≠ nid) :
    linksFor (store_notification ndb nd [a, b, c] nid now).1 nid =
      [unreadLink nid a, unreadLink nid b, unreadLink nid c] ∧
    linksFor (mark_notification_as_read
        (store_notification ndb nd [a, b, c] nid now).1 nid b).1 nid =
      [unreadLink nid a, readLink nid b, unreadLink nid c] ∧
    unreadResponse nd nid now ∈
      get_unread_notifications (mark_notification_as_read
        (store_notification ndb nd [a, b, c] nid now).1 nid b).1 a := by
  have hab' : (a == b) = false := by simp [hab]
  have hcb' : (c == b) = false := by simp [hcb]
  have hstore : (store_notification ndb nd [a, b, c] nid now).1 =
      { notifications := ndb.notifications ++ [storedNotification nd nid now],
        links := ndb.links ++
          [unreadLink nid a, unreadLink nid b, unreadLink nid c] } := by
    simp [store_notification, storedNotification, unreadLink]
  have holdlinks : ndb.links.filter (fun l => l.notification_id == nid) = [] :=
    List.filter_eq_nil_iff.mpr (fun l hl => by simp [hfresh l hl])
  have hfindold : ndb.links.find?
      (fun l => l.notification_id == nid && l.user_id == b) = none :=
    List.find?_eq_none.mpr (fun l hl => by simp [hfresh l hl])
  have hfind2 : (ndb.links ++
      [unreadLink nid a, unreadLink nid b, unreadLink nid c]).find?
        (fun l => l.notification_id == nid && l.user_id == b) =
      some (unreadLink nid b) := by
    rw [find?_append_of_none _ hfindold]
    rw [List.find?_cons_of_neg _ (by simp [unreadLink, hab'])]
    exact List.find?_cons_of_pos _ (by simp [unreadLink])
  have hmaplinks : (ndb.links ++
      [unreadLink nid a, unreadLink nid b, unreadLink nid c]).map
        (fun l => if l.notification_id == nid && l.user_id == b then
          { l with is_read := true } else l) =
      ndb.links ++ [unreadLink nid a, readLink nid b, unreadLink nid c] := by
    rw [List.map_append]
    congr 1
    · apply map_id_of_forall
      intro x hx
      rw [if_neg (by simp [hfresh x hx])]
    · simp only [List.map_cons, List.map_nil, unreadLink, readLink]
      simp [hab', hcb']
  have hmark : (mark_notification_as_read
      ({ notifications := ndb.notifications ++ [storedNotification nd nid now],
         links := ndb.links ++
           [unreadLink nid a, unreadLink nid b, unreadLink nid c] } :
        NDB) nid b).1 =
      { notifications := ndb.notifications ++ [storedNotification nd nid now],
        links := ndb.links ++
          [unreadLink nid a, readLink nid b, unreadLink nid c] } := by
    simp only [mark_notification_as_read, hfind2, hmaplinks]
    split
    · rfl
    · rfl
  refine ⟨?_, ?_, ?_⟩
  · rw [hstore]
    simp only [linksFor, List.filter_append, holdlinks, List.nil_append]
    simp [unreadLink]
  · rw [hstore, hmark]
    simp only [linksFor, List.filter_append, holdlinks, List.nil_append]
    simp [unreadLink, readLink]
  · rw [hstore, hmark]
    apply List.mem_map.mpr
    refine ⟨storedNotification nd nid now, ?_, by
      simp [storedNotification, unreadResponse]⟩
    apply List.mem_filter.mpr
    constructor
    · exact List.mem_append_right _ (by simp)
    · apply List.any_eq_true.mpr
      refine ⟨unreadLink nid a, List.mem_append_right _ (by simp),
        by simp [unreadLink, storedNotification]⟩

/-- C8 witness: publishing to recipients 1, 2, 3 from the empty state and
marking user 2's copy read. -/
theorem C8_publish_three_witness :
    linksFor (store_notification { notifications := [], links := [] }
      { sender_id := none, title := "t", message := "m" } [1, 2, 3] 10 0).1 10 =
      [unreadLink 10 1, unreadLink 10 2, unreadLink 10 3] ∧
    linksFor (mark_notification_as_read
        (store_notification { notifications := [], links := [] }
          { sender_id := none, title := "t", message := "m" }
          [1, 2, 3] 10 0).1 10 2).1 10 =
      [unreadLink 10 1, readLink 10 2, unreadLink 10 3] ∧
    unreadResponse { sender_id := none, title := "t", message := "m" } 10 0 ∈
      get_unread_notifications (mark_notification_as_read
        (store_notification { notifications := [], links := [] }
          { sender_id := none, title := "t", message := "m" }
          [1, 2, 3] 10 0).1 10 2).1 1 :=
  C8_publish_three_mark_one { notifications := [], links := [] }
    { sender_id := none, title := "t", message := "m" } 1 2 3 10 0
    (by decide) (by decide) (by decide)

/-! ## C10 — empty recipient list broadcasts to every user -/

/-- C10: when the publish endpoint is called with an empty `user_ids`
list, the recipient list falls back to every user currently in the system,
so the stored notification gets exactly one unread recipient link per user
in the `users` table — not zero links. -/
theorem C10_empty_user_ids_broadcasts (ndb : NDB) (nd : NotificationCreate)
    (all_user_ids : List Nat) (nid now : Nat)
    (hfresh : ∀ l ∈ ndb.links, l.notification_id ≠ nid) :
    (create_notification ndb nd [] all_user_ids nid now).1.links =
      ndb.links ++ all_user_ids.map (fun u => unreadLink nid u) ∧
    linksFor (create_notification ndb nd [] all_user_ids nid now).1 nid =
      all_user_ids.map (fun u => unreadLink nid u) := by
  have h1 : (create_notification ndb nd [] all_user_ids nid now).1.links =
      ndb.links ++ all_user_ids.map (fun u => unreadLink nid u) := by
    simp [create_notification, store_notification, unreadLink]
  have holdlinks : ndb.links.filter (fun l => l.notification_id == nid) = [] :=
    List.filter_eq_nil_iff.mpr (fun l hl => by simp [hfresh l hl])
  have hnew : (all_user_ids.map (fun u => unreadLink nid u)).filter
      (fun l => l.notification_id == nid) =
      all_user_ids.map (fun u => unreadLink nid u) := by
    apply List.filter_eq_self.mpr
    intro x hx
    obtain ⟨u, hu, rfl⟩ := List.mem_map.mp hx
    simp [unreadLink]
  refine ⟨h1, ?_⟩
  rw [linksFor, h1, List.filter_append, holdlinks, List.nil_append, hnew]

/-- C10 witness: with users 4 and 5 in the system and an empty `user_ids`
parameter, the notification is linked unread to both. -/
theorem C10_broadcast_witness :
    (create_notification { notifications := [], links := [] }
      { sender_id := none, title := "t", message := "m" } [] [4, 5] 10 0).1.links =
      ([] : List RecipientLink) ++ [4, 5].map (fun u => unreadLink 10 u) ∧
    linksFor (create_notification { notifications := [], links := [] }
      { sender_id := none, title := "t", message := "m" } [] [4, 5] 10 0).1 10 =
      [4, 5].map (fun u => unreadLink 10 u) :=
  C10_empty_user_ids_broadcasts { notifications := [], links := [] }
    { sender_id := none, title := "t", message := "m" } [4, 5] 10 0 (by decide)

/-! ## C9 — derived upload key versus the key passed to deletion -/

/-- A file uploaded under the derived key `11/r42/report.pdf`; its stored
URL ends with that key, as `upload_or_replace_file` returns a URL locating
the object. -/
def c9file : FileRow :=
  { id := 5, user_id := 11, file_name := "report.pdf",
    file_type := FileType.document, file_size := 10,
    file_url := "https://bucket.example.com/" ++
      derive_key "11" "r42" "report.pdf" }

/-- The database holding `c9file` and its owner's consistent account. -/
def c9db : DB :=
  { storages := [{ user_id := 11, total_space := 100, used_space := 10 }],
    files := [c9file] }

/-- C9: the upload derives the object key `{user_id}/{random_id}/{filename}`
(here `11/r42/report.pdf`), but `delete_file` extracts as "key" only the
**last** `/`-separated segment of the stored URL (`report.pdf`), which can
never equal the derived key (the derived key always contains `/`).
Consequently, against an object store that holds the object under the
derived key, the delete signals removal of the wrong name: the code's own
comment says "Extract key from URL", so this is a slip in the code, not in
the claim. -/
theorem C9_delete_signals_wrong_key :
    derive_key "11" "r42" "report.pdf" = "11/r42/report.pdf" ∧
    extractKey c9file.file_url = "report.pdf" ∧
    extractKey c9file.file_url ≠ derive_key "11" "r42" "report.pdf" ∧
    delete_file (fun k => k == derive_key "11" "r42" "report.pdf") c9db 5 11 =
      (c9db, Except.error ApiError.storageFailure) := by
  refine ⟨rfl, by decide, by decide, by decide⟩

end FileMgmt
